import Mathlib

/-!
Shallow embedding of the GitLab Renovate pipeline of `hv-cli`
(`src/hv/commands/gitlab.py`): project-path generation, the
`lru_cache`-memoized project-id directory lookup, the concurrent fan-out
fetch of Renovate merge requests, and the approve+merge mutation pipeline.

Remote HTTP responses are modelled by an environment `Env` mapping each
request to its response; each embedded function additionally returns the
list of network calls it issued and the lines it printed, so that claims
about call counts, warnings and failure reports can be stated.  The
concurrent `asyncio.gather` fan-outs are embedded sequentially in task
submission order, which is the order `gather` returns results in; the
shared `lru_cache` state is threaded through that order.
-/

namespace HvGitlab

/-- One merge-request JSON record, restricted to the fields the code reads
(`source_branch`, `title`, `project_id`, `iid`) or writes (`project_path`). -/
structure MR where
  source_branch : String
  title : String
  project_id : Nat
  iid : Nat
  project_path : String
  deriving Repr, DecidableEq

/-- Response of `GET /api/v4/projects/:encoded_path`: HTTP status and the
`id` field of the JSON body (read only on status 200). -/
structure DirResp where
  status : Nat
  id : Nat
  deriving Repr, DecidableEq

/-- Response of `GET /api/v4/projects/:id/merge_requests?state=opened`. -/
structure ListResp where
  status : Nat
  body : List MR
  deriving Repr, DecidableEq

/-- Response of `GET .../merge_requests/:iid/approvals`; `approved` is the
truthiness of `approvals.get("approved")`. -/
structure ApprovalsResp where
  status : Nat
  approved : Bool
  deriving Repr, DecidableEq

/-- Response of `POST .../merge_requests/:iid/approve`: only the status is read. -/
structure ApproveResp where
  status : Nat
  deriving Repr, DecidableEq

/-- Response of `PUT .../merge_requests/:iid/merge`: status plus the
`message` field of the JSON body; `none` models both an unparsable body and
a body without a `message` key (either way the code falls back to
`HTTP <status>`). -/
structure MergeResp where
  status : Nat
  message : Option String
  deriving Repr, DecidableEq

/-- The environment of one run: the credential `get_credential("gitlab",
"token")` (`none` when absent) and the remote service's response to each
request the code can issue. -/
structure Env where
  token : Option String
  dirResp : String → DirResp
  listResp : Nat → ListResp
  approvalsResp : Nat → Nat → ApprovalsResp
  approveResp : Nat → Nat → ApproveResp
  mergeResp : Nat → Nat → MergeResp

/-- One network request issued by the embedded code. -/
inductive NetCall where
  | getProject (path : String)
  | listMRs (pid : Nat)
  | approvals (pid iid : Nat)
  | approve (pid iid : Nat)
  | merge (pid iid : Nat)
  deriving Repr, DecidableEq

/-- Python truthiness test `if not token:`: true for `None` and `""`. -/
def tokenFalsy : Option String → Bool
  | none => true
  | some s => s.isEmpty

/-- Argument of a `typer.Exit` raise.  The code raises
`typer.Exit("GitLab token not found in credentials.yaml")`, passing a
string where the `code` parameter is expected. -/
inductive ExitArg where
  | code (n : Nat)
  | msg (s : String)
  deriving Repr, DecidableEq

/-- Process exit status produced when a `typer.Exit` escapes to the CLI
boundary: click calls `sys.exit(e.exit_code)`, and CPython's `sys.exit`
with a non-integer argument exits with status 1. -/
def exitStatus : ExitArg → Nat
  | .code n => n
  | .msg _ => 1

/-- Lines printed when a `typer.Exit` escapes to the CLI boundary:
`sys.exit` with a string argument prints that string to stderr. -/
def exitOutput : ExitArg → List String
  | .code _ => []
  | .msg s => [s]

/-- The exact `typer.Exit` argument raised on a missing token. -/
def tokenError : ExitArg := .msg "GitLab token not found in credentials.yaml"

/-- State of the `functools.lru_cache(maxsize=None)` wrapper around
`get_project_id`: the memo table (in insertion order) and the hit/miss
counters.  CPython's `lru_cache` stores every returned value — including
`None` — and increments `misses` before calling the wrapped function. -/
structure CacheState where
  entries : List (String × Option Nat)
  hits : Nat
  misses : Nat
  deriving Repr, DecidableEq

/-- The cache at process start: empty, zero counters. -/
def CacheState.init : CacheState := ⟨[], 0, 0⟩

/-- Lookup of a key in the memo table. -/
def findEntry : List (String × Option Nat) → String → Option (Option Nat)
  | [], _ => none
  | (k, v) :: rest, key => if k = key then some v else findEntry rest key

/-- The `CacheInfo` named tuple of `get_project_id.cache_info()`. -/
structure CacheInfo where
  hits : Nat
  misses : Nat
  currsize : Nat
  deriving Repr, DecidableEq

/-- `get_project_id.cache_info()`. -/
def cache_info (st : CacheState) : CacheInfo := ⟨st.hits, st.misses, st.entries.length⟩

/-- `get_project_id.cache_clear()`: discards all entries and zeroes both counters. -/
def cache_clear (_ : CacheState) : CacheState := ⟨[], 0, 0⟩

/-- A piece of the `project_name_template` format string: literal text, the
`{nro}` field, or the `{type}` field. -/
inductive TmplPart where
  | lit (s : String)
  | nroField
  | typeField
  deriving Repr, DecidableEq

/-- `template.format(nro=nro, type=type_)`. -/
def formatTemplate (template : List TmplPart) (nro type_ : String) : String :=
  template.foldl
    (fun acc p =>
      acc ++ match p with
        | .lit s => s
        | .nroField => nro
        | .typeField => type_)
    ""

/-- `get_project_paths`, after the config defaults have been resolved: the
list comprehension
`[f"{base_path}/{nro}/{template.format(nro=nro, type=type_)}"
  for nro in nros for type_ in types]`. -/
def get_project_paths (nros types : List String) (base_path : String)
    (template : List TmplPart) : List String :=
  nros.flatMap fun nro => types.map fun type_ =>
    base_path ++ "/" ++ nro ++ "/" ++ formatTemplate template nro type_

/-- Result of one `get_project_id` call: the returned value (or the raised
`typer.Exit`), the cache state after the call, and the network calls issued. -/
structure IdOut where
  result : Except ExitArg (Option Nat)
  cache : CacheState
  calls : List NetCall
  deriving Repr

/-- `get_project_id(project_path)` together with its `lru_cache` wrapper.
On a hit the memoized value is returned with no call to the body; on a miss
the body runs: token check (raising `typer.Exit` on a falsy token, which is
not cached), then one directory request, returning `json()["id"]` on
status 200 and `None` otherwise — and `lru_cache` stores that returned
value, `None` included. -/
def get_project_id (env : Env) (st : CacheState) (project_path : String) : IdOut :=
  match findEntry st.entries project_path with
  | some v => ⟨.ok v, ⟨st.entries, st.hits + 1, st.misses⟩, []⟩
  | none =>
    if tokenFalsy env.token then
      ⟨.error tokenError, ⟨st.entries, st.hits, st.misses + 1⟩, []⟩
    else
      let resp := env.dirResp project_path
      let v : Option Nat := if resp.status = 200 then some resp.id else none
      ⟨.ok v, ⟨st.entries ++ [(project_path, v)], st.hits, st.misses + 1⟩,
        [.getProject project_path]⟩

/-- Python truthiness test `if not project_id:` on an `Optional[int]`:
falsy for `None` and for `0`. -/
def idFalsy : Option Nat → Bool
  | none => true
  | some n => n == 0

/-- Result of a fetch step: records (or raised `typer.Exit`), cache state
after, network calls issued, lines printed. -/
structure MRsOut where
  result : Except ExitArg (List MR)
  cache : CacheState
  calls : List NetCall
  out : List String
  deriving Repr

/-- `_fetch_project_mrs(project_path, gitlab_url, headers)`: resolve the id
through the cached `get_project_id`; on a falsy id print a yellow warning
and return `[]`; otherwise issue the list request, and on status 200 keep
the records whose `source_branch` starts with `"issue-renovate-"`, setting
`mr["project_path"] = project_path` on each kept record; on any other
status print a red line and return `[]`. -/
def fetch_project_mrs (env : Env) (st : CacheState) (project_path : String) : MRsOut :=
  let r := get_project_id env st project_path
  match r.result with
  | .error e => ⟨.error e, r.cache, r.calls, []⟩
  | .ok pidOpt =>
    if idFalsy pidOpt then
      ⟨.ok [], r.cache, r.calls,
        ["[yellow]Could not find project: " ++ project_path ++ "[/yellow]"]⟩
    else
      let pid := pidOpt.getD 0
      let resp := env.listResp pid
      if resp.status = 200 then
        let mrs :=
          (resp.body.filter fun mr => mr.source_branch.startsWith "issue-renovate-").map
            fun mr => { mr with project_path := project_path }
        ⟨.ok mrs, r.cache, r.calls ++ [.listMRs pid], []⟩
      else
        ⟨.ok [], r.cache, r.calls ++ [.listMRs pid],
          ["[red]Failed to get MRs for project: " ++ project_path ++ "[/red]"]⟩

/-- The fan-out over `project_paths` inside `get_renovate_mrs`: one
`_fetch_project_mrs` task per path, results gathered in task submission
order and flattened in that order; the shared cache state is threaded
through. -/
def fetchManyAux (env : Env) : List String → CacheState → MRsOut
  | [], st => ⟨.ok [], st, [], []⟩
  | p :: rest, st =>
    let r := fetch_project_mrs env st p
    match r.result with
    | .error e => ⟨.error e, r.cache, r.calls, r.out⟩
    | .ok mrs =>
      let rr := fetchManyAux env rest r.cache
      match rr.result with
      | .error e => ⟨.error e, rr.cache, r.calls ++ rr.calls, r.out ++ rr.out⟩
      | .ok more => ⟨.ok (mrs ++ more), rr.cache, r.calls ++ rr.calls, r.out ++ rr.out⟩

/-- `get_renovate_mrs(project_paths)`: token precondition check (raising
`typer.Exit` before any request when the token is falsy), then the
fan-out/gather over all paths, flattening the per-path record lists in
input order. -/
def get_renovate_mrs (env : Env) (st : CacheState) (project_paths : List String) : MRsOut :=
  if tokenFalsy env.token then ⟨.error tokenError, st, [], []⟩
  else fetchManyAux env project_paths st

/-- Result of a mutation step: boolean outcome (or raised `typer.Exit`),
network calls issued, lines printed. -/
structure BoolOut where
  result : Except ExitArg Bool
  calls : List NetCall
  out : List String
  deriving Repr

/-- `approve_mr_if_not_yet(project_id, mr_iid)`: token check, then the
approvals read; any non-200 read returns `False`; if the body's `approved`
is truthy return `True` without approving; otherwise issue the approve
request and return whether its status is 201. -/
def approve_mr_if_not_yet (env : Env) (project_id mr_iid : Nat) : BoolOut :=
  if tokenFalsy env.token then ⟨.error tokenError, [], []⟩
  else
    let resp := env.approvalsResp project_id mr_iid
    if resp.status ≠ 200 then ⟨.ok false, [.approvals project_id mr_iid], []⟩
    else if resp.approved then ⟨.ok true, [.approvals project_id mr_iid], []⟩
    else
      let resp2 := env.approveResp project_id mr_iid
      ⟨.ok (resp2.status == 201), [.approvals project_id mr_iid, .approve project_id mr_iid], []⟩

/-- `merge_mr(project_id, mr_iid, title)`: token check, then the merge
request; on status 200 print the green line and return `True`; otherwise
extract `response.json().get("message", f"HTTP {status}")` (falling back to
`HTTP <status>` when the body is unusable), print the red line, return
`False`. -/
def merge_mr (env : Env) (project_id mr_iid : Nat) (title : String) : BoolOut :=
  if tokenFalsy env.token then ⟨.error tokenError, [], []⟩
  else
    let resp := env.mergeResp project_id mr_iid
    if resp.status = 200 then
      ⟨.ok true, [.merge project_id mr_iid],
        ["[green]Merged[/green] [" ++ toString project_id ++ "] " ++ title]⟩
    else
      let error_msg := resp.message.getD ("HTTP " ++ toString resp.status)
      ⟨.ok false, [.merge project_id mr_iid],
        ["[red]" ++ error_msg ++ "[/red] [" ++ toString project_id ++ "] " ++ title]⟩

/-- `process_mr(mr)`: await the approve step (its boolean result is
discarded), then await and return the merge step. -/
def process_mr (env : Env) (mr : MR) : BoolOut :=
  let ra := approve_mr_if_not_yet env mr.project_id mr.iid
  match ra.result with
  | .error e => ⟨.error e, ra.calls, ra.out⟩
  | .ok _ =>
    let rm := merge_mr env mr.project_id mr.iid mr.title
    ⟨rm.result, ra.calls ++ rm.calls, ra.out ++ rm.out⟩

/-- Result of `process_all_mrs`: the `(success_count, total)` pair (or a
raised `typer.Exit`), network calls issued, lines printed. -/
structure CountOut where
  result : Except ExitArg (Nat × Nat)
  calls : List NetCall
  out : List String
  deriving Repr

/-- The fan-out over records inside `process_all_mrs`, summing the boolean
results in task submission order. -/
def processAux (env : Env) : List MR → Except ExitArg Nat × List NetCall × List String
  | [] => (.ok 0, [], [])
  | mr :: rest =>
    let r := process_mr env mr
    match r.result with
    | .error e => (.error e, r.calls, r.out)
    | .ok b =>
      let rr := processAux env rest
      match rr.1 with
      | .error e => (.error e, r.calls ++ rr.2.1, r.out ++ rr.2.2)
      | .ok n => (.ok ((if b then 1 else 0) + n), r.calls ++ rr.2.1, r.out ++ rr.2.2)

/-- `process_all_mrs(mrs)`: gather all `process_mr` tasks and return
`(sum(results), len(mrs))`. -/
def process_all_mrs (env : Env) (mrs : List MR) : CountOut :=
  let r := processAux env mrs
  match r.1 with
  | .error e => ⟨.error e, r.2.1, r.2.2⟩
  | .ok n => ⟨.ok (n, mrs.length), r.2.1, r.2.2⟩

/-- The value `get_project_id`'s body computes (and `lru_cache` stores) for
a path: the json `id` on status 200, `None` otherwise. -/
def dirLookup (env : Env) (path : String) : Option Nat :=
  if (env.dirResp path).status = 200 then some (env.dirResp path).id else none

/-- A cache state is consistent with `env` when every memoized entry holds
exactly the value the directory lookup would compute for its key.  Every
state reachable from `CacheState.init` in a fixed environment is
consistent. -/
def CacheState.consistent (st : CacheState) (env : Env) : Prop :=
  ∀ p v, (p, v) ∈ st.entries → v = dirLookup env p

/-- The records `_fetch_project_mrs` returns for one path, as a pure
function of the environment (independent of the cache state). -/
def fetchRecords (env : Env) (path : String) : List MR :=
  if idFalsy (dirLookup env path) then []
  else
    let pid := (dirLookup env path).getD 0
    if (env.listResp pid).status = 200 then
      ((env.listResp pid).body.filter fun mr =>
        mr.source_branch.startsWith "issue-renovate-").map
        fun mr => { mr with project_path := path }
    else []

/-- The list-step network calls `_fetch_project_mrs` issues for one path
(beyond the directory lookup, which depends on the cache state). -/
def listCalls (env : Env) (path : String) : List NetCall :=
  if idFalsy (dirLookup env path) then []
  else [.listMRs ((dirLookup env path).getD 0)]

/-- The lines `_fetch_project_mrs` prints for one path. -/
def fetchOut (env : Env) (path : String) : List String :=
  if idFalsy (dirLookup env path) then
    ["[yellow]Could not find project: " ++ path ++ "[/yellow]"]
  else if (env.listResp ((dirLookup env path).getD 0)).status = 200 then []
  else ["[red]Failed to get MRs for project: " ++ path ++ "[/red]"]

/-! ### Concrete environments used to instantiate the theorems -/

/-- A concrete run where the token is present and every directory lookup
answers 404. -/
def envFail : Env :=
  ⟨some "tok", fun _ => ⟨404, 0⟩, fun _ => ⟨200, []⟩, fun _ _ => ⟨200, true⟩,
    fun _ _ => ⟨201⟩, fun _ _ => ⟨200, none⟩⟩

/-- A concrete run where the token is present and every directory lookup
answers 200 with id 42. -/
def envOk : Env :=
  ⟨some "tok", fun _ => ⟨200, 42⟩, fun _ => ⟨200, []⟩, fun _ _ => ⟨200, true⟩,
    fun _ _ => ⟨201⟩, fun _ _ => ⟨200, none⟩⟩

/-- A record matching the Renovate branch pattern. -/
def mrA : MR := ⟨"issue-renovate-dep1", "Bump dep1", 101, 7, ""⟩

/-- A record not matching the Renovate branch pattern. -/
def mrB : MR := ⟨"feature-x", "Add feature", 101, 8, ""⟩

/-- A concrete run with one resolvable project (id 101, a matching and a
non-matching record) and every other path unresolvable. -/
def envMix : Env :=
  ⟨some "tok",
    fun p => if p = "grp/org-a/proj-x" then ⟨200, 101⟩ else ⟨404, 0⟩,
    fun pid => if pid = 101 then ⟨200, [mrA, mrB]⟩ else ⟨500, []⟩,
    fun _ _ => ⟨200, false⟩, fun _ _ => ⟨201⟩, fun _ _ => ⟨200, none⟩⟩

/-- A concrete run for the mutation pipeline: the merge call for iid 3
answers 405 with a `message` body, every other merge answers 200. -/
def envMerge : Env :=
  ⟨some "tok", fun _ => ⟨404, 0⟩, fun _ => ⟨500, []⟩,
    fun _ _ => ⟨200, true⟩, fun _ _ => ⟨201⟩,
    fun _ iid => if iid = 3 then ⟨405, some "Method Not Allowed"⟩ else ⟨200, none⟩⟩

/-- Five Renovate records; the third one (iid 3) will fail its merge under
`envMerge`. -/
def mrsFive : List MR :=
  [⟨"issue-renovate-a", "r1", 101, 1, "p"⟩, ⟨"issue-renovate-b", "r2", 101, 2, "p"⟩,
    ⟨"issue-renovate-c", "r3", 101, 3, "p"⟩, ⟨"issue-renovate-d", "r4", 101, 4, "p"⟩,
    ⟨"issue-renovate-e", "r5", 101, 5, "p"⟩]

/-- A concrete run with the credential absent. -/
def envNoTok : Env :=
  ⟨none, fun _ => ⟨200, 42⟩, fun _ => ⟨200, []⟩, fun _ _ => ⟨200, true⟩,
    fun _ _ => ⟨201⟩, fun _ _ => ⟨200, none⟩⟩

/-- A concrete run where the record is not yet approved: the approvals read
answers 200 with `approved` false, the approve call answers 201. -/
def envNotApproved : Env :=
  ⟨some "tok", fun _ => ⟨404, 0⟩, fun _ => ⟨500, []⟩,
    fun _ _ => ⟨200, false⟩, fun _ _ => ⟨201⟩, fun _ _ => ⟨200, none⟩⟩

/-! ### Helper lemmas -/

theorem get_project_paths_length (nros types : List String) (base_path : String)
    (template : List TmplPart) :
    (get_project_paths nros types base_path template).length =
      nros.length * types.length := by
  induction nros with
  | nil => simp [get_project_paths]
  | cons n rest ih =>
    simp only [get_project_paths, List.flatMap_cons, List.length_append,
      List.length_map, List.length_cons] at *
    rw [ih]; ring

theorem get_project_paths_getElem (nros types : List String) (base_path : String)
    (template : List TmplPart) (i j : Nat) (hi : i < nros.length)
    (hj : j < types.length) :
    (get_project_paths nros types base_path template)[i * types.length + j]? =
      some (base_path ++ "/" ++ nros[i] ++ "/" ++
        formatTemplate template nros[i] types[j]) := by
  induction nros generalizing i with
  | nil => simp at hi
  | cons n rest ih =>
    simp only [get_project_paths, List.flatMap_cons] at *
    cases i with
    | zero =>
      rw [Nat.zero_mul, Nat.zero_add, List.getElem?_append_left (by simpa using hj)]
      simp [List.getElem?_eq_getElem hj]
    | succ k =>
      have hk : k < rest.length := by simpa using hi
      have harith : (k + 1) * types.length + j =
          types.length + (k * types.length + j) := by ring
      rw [harith, List.getElem?_append_right (by simp)]
      simpa using ih k hk

theorem findEntry_mem {l : List (String × Option Nat)} {key : String}
    {v : Option Nat} (h : findEntry l key = some v) : (key, v) ∈ l := by
  induction l with
  | nil => simp [findEntry] at h
  | cons e rest ih =>
    obtain ⟨k, w⟩ := e
    by_cases hk : k = key
    · subst hk
      have h' : w = v := by simpa [findEntry] using h
      subst h'
      exact List.mem_cons_self _ _
    · simp only [findEntry, if_neg hk] at h
      exact List.mem_cons_of_mem _ (ih h)

theorem init_consistent (env : Env) : CacheState.init.consistent env := by
  intro p v h
  simp [CacheState.init] at h

theorem get_project_id_ok (env : Env) (st : CacheState) (path : String)
    (htok : tokenFalsy env.token = false) (hst : st.consistent env) :
    (get_project_id env st path).result = .ok (dirLookup env path) ∧
    ((get_project_id env st path).cache).consistent env := by
  cases hfind : findEntry st.entries path with
  | some v =>
    have hv : v = dirLookup env path := hst path v (findEntry_mem hfind)
    constructor
    · simp [get_project_id, hfind, hv]
    · intro p w hw
      have hmem : (p, w) ∈ st.entries := by
        simpa [get_project_id, hfind] using hw
      exact hst p w hmem
  | none =>
    constructor
    · simp [get_project_id, hfind, htok, dirLookup]
    · intro p w hw
      have hmem : (p, w) ∈ st.entries ++ [(path, dirLookup env path)] := by
        simpa [get_project_id, hfind, htok, dirLookup] using hw
      rcases List.mem_append.1 hmem with h | h
      · exact hst p w h
      · simp only [List.mem_singleton, Prod.mk.injEq] at h
        obtain ⟨hp, hwv⟩ := h
        subst hp; subst hwv; rfl

theorem fetch_project_mrs_eq (env : Env) (st : CacheState) (path : String)
    (htok : tokenFalsy env.token = false) (hst : st.consistent env) :
    fetch_project_mrs env st path =
      ⟨.ok (fetchRecords env path), (get_project_id env st path).cache,
        (get_project_id env st path).calls ++ listCalls env path,
        fetchOut env path⟩ := by
  obtain ⟨hres, -⟩ := get_project_id_ok env st path htok hst
  by_cases hid : idFalsy (dirLookup env path)
  · simp [fetch_project_mrs, hres, fetchRecords, listCalls, fetchOut, hid]
  · by_cases hls : (env.listResp ((dirLookup env path).getD 0)).status = 200
    · simp [fetch_project_mrs, hres, fetchRecords, listCalls, fetchOut, hid, hls]
    · simp [fetch_project_mrs, hres, fetchRecords, listCalls, fetchOut, hid, hls]

theorem fetchManyAux_eq (env : Env) (paths : List String) (st : CacheState)
    (htok : tokenFalsy env.token = false) (hst : st.consistent env) :
    (fetchManyAux env paths st).result =
      .ok (paths.map (fetchRecords env)).flatten ∧
    ((fetchManyAux env paths st).cache).consistent env ∧
    (fetchManyAux env paths st).out = (paths.map (fetchOut env)).flatten := by
  induction paths generalizing st with
  | nil => exact ⟨rfl, hst, rfl⟩
  | cons p rest ih =>
    have heq := fetch_project_mrs_eq env st p htok hst
    have hcons := (get_project_id_ok env st p htok hst).2
    obtain ⟨ih1, ih2, ih3⟩ := ih _ hcons
    refine ⟨?_, ?_, ?_⟩ <;>
      simp [fetchManyAux, heq, ih1, ih2, ih3]

theorem merge_mr_spec (env : Env) (pid iid : Nat) (title : String)
    (htok : tokenFalsy env.token = false) :
    (merge_mr env pid iid title).result =
      .ok ((env.mergeResp pid iid).status == 200) ∧
    (merge_mr env pid iid title).calls = [.merge pid iid] ∧
    ((env.mergeResp pid iid).status ≠ 200 →
      (merge_mr env pid iid title).out =
        ["[red]" ++ ((env.mergeResp pid iid).message.getD
            ("HTTP " ++ toString (env.mergeResp pid iid).status)) ++
          "[/red] [" ++ toString pid ++ "] " ++ title]) := by
  by_cases h : (env.mergeResp pid iid).status = 200 <;>
    simp [merge_mr, htok, h]

theorem approve_result_ok (env : Env) (pid iid : Nat)
    (htok : tokenFalsy env.token = false) :
    ∃ b, (approve_mr_if_not_yet env pid iid).result = .ok b := by
  by_cases h1 : (env.approvalsResp pid iid).status = 200 <;>
    by_cases h2 : (env.approvalsResp pid iid).approved <;>
      simp [approve_mr_if_not_yet, htok, h1, h2]

theorem process_mr_spec (env : Env) (mr : MR)
    (htok : tokenFalsy env.token = false) :
    (process_mr env mr).result =
      .ok ((env.mergeResp mr.project_id mr.iid).status == 200) ∧
    (process_mr env mr).calls =
      (approve_mr_if_not_yet env mr.project_id mr.iid).calls ++
        [NetCall.merge mr.project_id mr.iid] ∧
    (process_mr env mr).out = (merge_mr env mr.project_id mr.iid mr.title).out := by
  obtain ⟨b, hb⟩ := approve_result_ok env mr.project_id mr.iid htok
  obtain ⟨hm1, hm2, -⟩ := merge_mr_spec env mr.project_id mr.iid mr.title htok
  have hout : (approve_mr_if_not_yet env mr.project_id mr.iid).out = [] := by
    by_cases h1 : (env.approvalsResp mr.project_id mr.iid).status = 200 <;>
      by_cases h2 : (env.approvalsResp mr.project_id mr.iid).approved <;>
        simp [approve_mr_if_not_yet, htok, h1, h2]
  refine ⟨?_, ?_, ?_⟩ <;> simp [process_mr, hb, hm1, hm2, hout]

theorem processAux_count (env : Env) (mrs : List MR)
    (htok : tokenFalsy env.token = false) :
    (processAux env mrs).1 =
      .ok (mrs.countP fun mr =>
        (env.mergeResp mr.project_id mr.iid).status == 200) := by
  induction mrs with
  | nil => simp [processAux]
  | cons mr rest ih =>
    have h1 := (process_mr_spec env mr htok).1
    by_cases h : (env.mergeResp mr.project_id mr.iid).status = 200 <;>
      simp [processAux, h1, ih, List.countP_cons, h, Nat.add_comm]

/-! ### Claims -/

/-- C2: for non-empty `nros` and `types`, `get_project_paths` returns
exactly `len(nros) * len(types)` identifiers, in the cross-product order
with `nros` as the outer loop and `types` as the inner loop, the element at
position `i * len(types) + j` being the base path followed by the org and
the formatted template; the function is pure (it takes no `Env` and issues
no network call). -/
theorem C2_cross_product (nros types : List String) (base_path : String)
    (template : List TmplPart) (hn : nros ≠ []) (ht : types ≠ []) :
    (get_project_paths nros types base_path template).length =
      nros.length * types.length ∧
    ∀ i j (hi : i < nros.length) (hj : j < types.length),
      (get_project_paths nros types base_path template)[i * types.length + j]? =
        some (base_path ++ "/" ++ nros[i] ++ "/" ++
          formatTemplate template nros[i] types[j]) :=
  ⟨get_project_paths_length nros types base_path template,
    fun i j hi hj => get_project_paths_getElem nros types base_path template i j hi hj⟩

theorem C2_cross_product_witness :
    (["pl", "de"] : List String) ≠ [] ∧ (["app"] : List String) ≠ [] ∧
    ((get_project_paths ["pl", "de"] ["app"] "group"
        [.lit "proj-", .nroField, .lit "-", .typeField]).length = 2 * 1 ∧
      ∀ i j (hi : i < (["pl", "de"] : List String).length)
        (hj : j < (["app"] : List String).length),
        (get_project_paths ["pl", "de"] ["app"] "group"
          [.lit "proj-", .nroField, .lit "-", .typeField])[i * 1 + j]? =
          some ("group" ++ "/" ++ (["pl", "de"] : List String)[i] ++ "/" ++
            formatTemplate [.lit "proj-", .nroField, .lit "-", .typeField]
              (["pl", "de"] : List String)[i] (["app"] : List String)[j])) :=
  ⟨by decide, by decide,
    C2_cross_product ["pl", "de"] ["app"] "group"
      [.lit "proj-", .nroField, .lit "-", .typeField] (by decide) (by decide)⟩

/-- C1 counterexample: with the token present and the directory answering
404 for `"g/p"`, the first `get_project_id` call memoizes the `None`
result, so the second call is a cache hit that issues no network call and
the final statistics show `misses = 1`, not 2 — refuting the claim that
nothing is stored, that the second call issues a network call, and that
`misses == 2`. -/
theorem C1_counterexample :
    ¬ ((get_project_id envFail CacheState.init "g/p").cache.entries = [] ∧
      (get_project_id envFail
        (get_project_id envFail CacheState.init "g/p").cache "g/p").calls ≠ [] ∧
      (get_project_id envFail
        (get_project_id envFail CacheState.init "g/p").cache "g/p").cache.misses = 2) := by
  decide

/-- C1 (amended): `lru_cache` memoizes the `None` returned on a failed
lookup, so after a first failing `resolve_id` the entry `(path, None)` IS
stored, and a second call with the same identifier is a cache hit that
issues no network call and returns `None` again; the statistics then show
`hits = 1` and `misses = 1`. -/
theorem C1_failure_is_cached (env : Env) (path : String)
    (htok : tokenFalsy env.token = false)
    (hfail : (env.dirResp path).status ≠ 200) :
    (get_project_id env CacheState.init path).result = .ok none ∧
    (get_project_id env CacheState.init path).calls = [.getProject path] ∧
    (get_project_id env CacheState.init path).cache.entries = [(path, none)] ∧
    (get_project_id env
      (get_project_id env CacheState.init path).cache path).result = .ok none ∧
    (get_project_id env
      (get_project_id env CacheState.init path).cache path).calls = [] ∧
    (get_project_id env
      (get_project_id env CacheState.init path).cache path).cache.hits = 1 ∧
    (get_project_id env
      (get_project_id env CacheState.init path).cache path).cache.misses = 1 := by
  simp [get_project_id, CacheState.init, findEntry, htok, hfail]

theorem C1_failure_is_cached_witness :
    tokenFalsy envFail.token = false ∧ (envFail.dirResp "g/p").status ≠ 200 ∧
    ((get_project_id envFail CacheState.init "g/p").result = .ok none ∧
      (get_project_id envFail CacheState.init "g/p").calls = [.getProject "g/p"] ∧
      (get_project_id envFail CacheState.init "g/p").cache.entries = [("g/p", none)] ∧
      (get_project_id envFail
        (get_project_id envFail CacheState.init "g/p").cache "g/p").result = .ok none ∧
      (get_project_id envFail
        (get_project_id envFail CacheState.init "g/p").cache "g/p").calls = [] ∧
      (get_project_id envFail
        (get_project_id envFail CacheState.init "g/p").cache "g/p").cache.hits = 1 ∧
      (get_project_id envFail
        (get_project_id envFail CacheState.init "g/p").cache "g/p").cache.misses = 1) :=
  ⟨by decide, by decide, C1_failure_is_cached envFail "g/p" (by decide) (by decide)⟩

/-- C3: after a first successful `resolve_id` (directory status 200), a
second call with the same identifier is a cache hit: no network call, the
same id returned, and statistics `hits = 1`, `misses = 1`; and
`cache_clear` discards all entries and resets both counters to zero. -/
theorem C3_hit_after_success (env : Env) (path : String)
    (htok : tokenFalsy env.token = false)
    (hok : (env.dirResp path).status = 200) :
    (get_project_id env CacheState.init path).result =
      .ok (some (env.dirResp path).id) ∧
    (get_project_id env CacheState.init path).calls = [.getProject path] ∧
    (get_project_id env
      (get_project_id env CacheState.init path).cache path).result =
      .ok (some (env.dirResp path).id) ∧
    (get_project_id env
      (get_project_id env CacheState.init path).cache path).calls = [] ∧
    (get_project_id env
      (get_project_id env CacheState.init path).cache path).cache.hits = 1 ∧
    (get_project_id env
      (get_project_id env CacheState.init path).cache path).cache.misses = 1 ∧
    ∀ st : CacheState, cache_clear st = CacheState.init ∧
      cache_info (cache_clear st) = ⟨0, 0, 0⟩ := by
  refine ⟨?_, ?_, ?_, ?_, ?_, ?_, fun st => ⟨rfl, rfl⟩⟩ <;>
    simp [get_project_id, CacheState.init, findEntry, htok, hok]

theorem C3_hit_after_success_witness :
    tokenFalsy envOk.token = false ∧ (envOk.dirResp "g/p").status = 200 ∧
    ((get_project_id envOk CacheState.init "g/p").result =
        .ok (some (envOk.dirResp "g/p").id) ∧
      (get_project_id envOk CacheState.init "g/p").calls = [.getProject "g/p"] ∧
      (get_project_id envOk
        (get_project_id envOk CacheState.init "g/p").cache "g/p").result =
        .ok (some (envOk.dirResp "g/p").id) ∧
      (get_project_id envOk
        (get_project_id envOk CacheState.init "g/p").cache "g/p").calls = [] ∧
      (get_project_id envOk
        (get_project_id envOk CacheState.init "g/p").cache "g/p").cache.hits = 1 ∧
      (get_project_id envOk
        (get_project_id envOk CacheState.init "g/p").cache "g/p").cache.misses = 1 ∧
      ∀ st : CacheState, cache_clear st = CacheState.init ∧
        cache_info (cache_clear st) = ⟨0, 0, 0⟩) :=
  ⟨by decide, by decide, C3_hit_after_success envOk "g/p" (by decide) (by decide)⟩

/-- C4: with the token present, an identifier whose directory resolution is
falsy yields zero records and exactly one yellow warning; an identifier
whose list call answers non-200 yields zero records and exactly one red
line; and the whole fan-out never raises — it returns the records of all
identifiers (the failing ones contributing the empty list), so one bad
project never aborts the batch. -/
theorem C4_partial_failure (env : Env) (st : CacheState) (path : String)
    (paths : List String) (htok : tokenFalsy env.token = false)
    (hst : st.consistent env) :
    (idFalsy (dirLookup env path) = true →
      (fetch_project_mrs env st path).result = .ok [] ∧
      (fetch_project_mrs env st path).out =
        ["[yellow]Could not find project: " ++ path ++ "[/yellow]"]) ∧
    (∀ pid, dirLookup env path = some pid → idFalsy (some pid) = false →
      (env.listResp pid).status ≠ 200 →
      (fetch_project_mrs env st path).result = .ok [] ∧
      (fetch_project_mrs env st path).out =
        ["[red]Failed to get MRs for project: " ++ path ++ "[/red]"]) ∧
    ∃ mrs : List MR, (get_renovate_mrs env st paths).result = .ok mrs ∧
      mrs = (paths.map (fetchRecords env)).flatten ∧
      ∀ p ∈ paths, idFalsy (dirLookup env p) = true → fetchRecords env p = [] := by
  have heq := fetch_project_mrs_eq env st path htok hst
  refine ⟨?_, ?_, ?_⟩
  · intro hid
    rw [heq]
    exact ⟨by simp [fetchRecords, hid], by simp [fetchOut, hid]⟩
  · intro pid hpid hnf hls
    rw [heq]
    constructor
    · simp [fetchRecords, hpid, hnf, hls]
    · simp [fetchOut, hpid, hnf, hls]
  · refine ⟨(paths.map (fetchRecords env)).flatten, ?_, rfl, ?_⟩
    · have := (fetchManyAux_eq env paths st htok hst).1
      simpa [get_renovate_mrs, htok] using this
    · intro p _ hp
      simp [fetchRecords, hp]

theorem C4_partial_failure_witness :
    tokenFalsy envMix.token = false ∧
    CacheState.init.consistent envMix ∧
    ((idFalsy (dirLookup envMix "grp/org-b/proj-y") = true →
        (fetch_project_mrs envMix CacheState.init "grp/org-b/proj-y").result = .ok [] ∧
        (fetch_project_mrs envMix CacheState.init "grp/org-b/proj-y").out =
          ["[yellow]Could not find project: " ++ "grp/org-b/proj-y" ++ "[/yellow]"]) ∧
      (∀ pid, dirLookup envMix "grp/org-b/proj-y" = some pid →
        idFalsy (some pid) = false → (envMix.listResp pid).status ≠ 200 →
        (fetch_project_mrs envMix CacheState.init "grp/org-b/proj-y").result = .ok [] ∧
        (fetch_project_mrs envMix CacheState.init "grp/org-b/proj-y").out =
          ["[red]Failed to get MRs for project: " ++ "grp/org-b/proj-y" ++ "[/red]"]) ∧
      ∃ mrs : List MR,
        (get_renovate_mrs envMix CacheState.init
          ["grp/org-a/proj-x", "grp/org-b/proj-y"]).result = .ok mrs ∧
        mrs = ((["grp/org-a/proj-x", "grp/org-b/proj-y"] : List String).map
          (fetchRecords envMix)).flatten ∧
        ∀ p ∈ (["grp/org-a/proj-x", "grp/org-b/proj-y"] : List String),
          idFalsy (dirLookup envMix p) = true → fetchRecords envMix p = []) :=
  ⟨by decide, init_consistent envMix,
    C4_partial_failure envMix CacheState.init "grp/org-b/proj-y"
      ["grp/org-a/proj-x", "grp/org-b/proj-y"] (by decide) (init_consistent envMix)⟩

/-- C5: with the token present, for a successfully resolved project whose
list call answers 200, the fetch keeps exactly the records whose
`source_branch` starts with `"issue-renovate-"`, tags every kept record
with the originating `project_path`, and the fetched count equals the
number of matching records. -/
theorem C5_filter_and_tag (env : Env) (st : CacheState) (path : String)
    (pid : Nat) (htok : tokenFalsy env.token = false) (hst : st.consistent env)
    (hpid : dirLookup env path = some pid) (hnf : idFalsy (some pid) = false)
    (hok : (env.listResp pid).status = 200) :
    (fetch_project_mrs env st path).result =
      .ok (((env.listResp pid).body.filter fun mr =>
          mr.source_branch.startsWith "issue-renovate-").map
        fun mr => { mr with project_path := path }) ∧
    (∀ mrs, (fetch_project_mrs env st path).result = .ok mrs →
      (∀ mr ∈ mrs, mr.project_path = path) ∧
      mrs.length = ((env.listResp pid).body.filter fun mr =>
        mr.source_branch.startsWith "issue-renovate-").length) ∧
    ∀ paths : List String, ∃ mrs : List MR,
      (get_renovate_mrs env st paths).result = .ok mrs ∧
      mrs.length = (paths.map fun p => (fetchRecords env p).length).sum := by
  have heq := fetch_project_mrs_eq env st path htok hst
  have hres : (fetch_project_mrs env st path).result =
      .ok (((env.listResp pid).body.filter fun mr =>
          mr.source_branch.startsWith "issue-renovate-").map
        fun mr => { mr with project_path := path }) := by
    rw [heq]
    simp [fetchRecords, hpid, hnf, hok]
  refine ⟨hres, ?_, ?_⟩
  · intro mrs hmrs
    rw [hres] at hmrs
    have hmrs' := Except.ok.inj hmrs
    subst hmrs'
    constructor
    · intro mr hmr
      obtain ⟨mr0, -, hmr0⟩ := List.mem_map.1 hmr
      rw [← hmr0]
    · exact List.length_map _ _
  · intro paths
    refine ⟨(paths.map (fetchRecords env)).flatten, ?_, ?_⟩
    · have := (fetchManyAux_eq env paths st htok hst).1
      simpa [get_renovate_mrs, htok] using this
    · rw [List.length_flatten, List.map_map]
      rfl

theorem C5_filter_and_tag_witness :
    tokenFalsy envMix.token = false ∧
    CacheState.init.consistent envMix ∧
    dirLookup envMix "grp/org-a/proj-x" = some 101 ∧
    idFalsy (some 101) = false ∧
    (envMix.listResp 101).status = 200 ∧
    ((fetch_project_mrs envMix CacheState.init "grp/org-a/proj-x").result =
        .ok (((envMix.listResp 101).body.filter fun mr =>
            mr.source_branch.startsWith "issue-renovate-").map
          fun mr => { mr with project_path := "grp/org-a/proj-x" }) ∧
      (∀ mrs, (fetch_project_mrs envMix CacheState.init "grp/org-a/proj-x").result =
          .ok mrs →
        (∀ mr ∈ mrs, mr.project_path = "grp/org-a/proj-x") ∧
        mrs.length = ((envMix.listResp 101).body.filter fun mr =>
          mr.source_branch.startsWith "issue-renovate-").length) ∧
      ∀ paths : List String, ∃ mrs : List MR,
        (get_renovate_mrs envMix CacheState.init paths).result = .ok mrs ∧
        mrs.length = (paths.map fun p => (fetchRecords envMix p).length).sum) :=
  ⟨by decide, init_consistent envMix, by decide, by decide, by decide,
    C5_filter_and_tag envMix CacheState.init "grp/org-a/proj-x" 101 (by decide)
      (init_consistent envMix) (by decide) (by decide) (by decide)⟩

/-- C10: with the token present and a cache consistent with the
environment, the fan-out fetch returns the per-identifier record lists
concatenated in input identifier order; each per-identifier list is a pure
function of the environment, so the result is deterministic and
independent of the cache state the concurrent tasks interleave on. -/
theorem C10_gather_preserves_order (env : Env) (st : CacheState)
    (paths : List String) (htok : tokenFalsy env.token = false)
    (hst : st.consistent env) :
    (get_renovate_mrs env st paths).result =
      .ok (paths.map (fetchRecords env)).flatten := by
  have := (fetchManyAux_eq env paths st htok hst).1
  simpa [get_renovate_mrs, htok] using this

/-- C6: with the token present, `process_all_mrs` returns
`(success_count, total)` where `total = len(mrs)` and `success_count`
counts the records whose merge call answered status 200; a record whose
merge answered any other status yields `False` and one red line whose
reason is the body's `message` field when available, else
`HTTP <status>`; no record's failure raises. -/
theorem C6_apply_counts (env : Env) (mrs : List MR)
    (htok : tokenFalsy env.token = false) :
    (process_all_mrs env mrs).result =
      .ok (mrs.countP (fun mr =>
        (env.mergeResp mr.project_id mr.iid).status == 200), mrs.length) ∧
    ∀ pid iid title, (env.mergeResp pid iid).status ≠ 200 →
      (merge_mr env pid iid title).result = .ok false ∧
      (merge_mr env pid iid title).out =
        ["[red]" ++ ((env.mergeResp pid iid).message.getD
            ("HTTP " ++ toString (env.mergeResp pid iid).status)) ++
          "[/red] [" ++ toString pid ++ "] " ++ title] := by
  constructor
  · simp [process_all_mrs, processAux_count env mrs htok]
  · intro pid iid title h
    obtain ⟨h1, -, h3⟩ := merge_mr_spec env pid iid title htok
    rw [h1]
    exact ⟨by simp [h], h3 h⟩

theorem C6_apply_counts_witness :
    tokenFalsy envMerge.token = false ∧
    ((process_all_mrs envMerge mrsFive).result =
        .ok (mrsFive.countP (fun mr =>
          (envMerge.mergeResp mr.project_id mr.iid).status == 200), mrsFive.length) ∧
      ∀ pid iid title, (envMerge.mergeResp pid iid).status ≠ 200 →
        (merge_mr envMerge pid iid title).result = .ok false ∧
        (merge_mr envMerge pid iid title).out =
          ["[red]" ++ ((envMerge.mergeResp pid iid).message.getD
              ("HTTP " ++ toString (envMerge.mergeResp pid iid).status)) ++
            "[/red] [" ++ toString pid ++ "] " ++ title]) :=
  ⟨by decide, C6_apply_counts envMerge mrsFive (by decide)⟩

/-- C7: with the token present, the step first issues the approvals read;
the approve call is issued exactly when that read answered 200 and the body
was not yet approved; a non-200 read yields `False` with no approve call;
an already-approved body yields `True` with no approve call; and when the
approve call is issued the step's outcome is exactly whether it answered
201. -/
theorem C7_approve_only_if_needed (env : Env) (pid iid : Nat)
    (htok : tokenFalsy env.token = false) :
    (approve_mr_if_not_yet env pid iid).calls.head? =
      some (.approvals pid iid) ∧
    (NetCall.approve pid iid ∈ (approve_mr_if_not_yet env pid iid).calls ↔
      (env.approvalsResp pid iid).status = 200 ∧
        (env.approvalsResp pid iid).approved = false) ∧
    ((env.approvalsResp pid iid).status ≠ 200 →
      (approve_mr_if_not_yet env pid iid).result = .ok false ∧
      (approve_mr_if_not_yet env pid iid).calls = [.approvals pid iid]) ∧
    ((env.approvalsResp pid iid).status = 200 →
      (env.approvalsResp pid iid).approved = true →
      (approve_mr_if_not_yet env pid iid).result = .ok true ∧
      (approve_mr_if_not_yet env pid iid).calls = [.approvals pid iid]) ∧
    ((env.approvalsResp pid iid).status = 200 →
      (env.approvalsResp pid iid).approved = false →
      (approve_mr_if_not_yet env pid iid).result =
        .ok ((env.approveResp pid iid).status == 201)) := by
  by_cases h1 : (env.approvalsResp pid iid).status = 200 <;>
    by_cases h2 : (env.approvalsResp pid iid).approved <;>
      simp [approve_mr_if_not_yet, htok, h1, h2]

theorem C7_approve_only_if_needed_witness :
    tokenFalsy envNotApproved.token = false ∧
    ((approve_mr_if_not_yet envNotApproved 101 7).calls.head? =
        some (.approvals 101 7) ∧
      (NetCall.approve 101 7 ∈ (approve_mr_if_not_yet envNotApproved 101 7).calls ↔
        (envNotApproved.approvalsResp 101 7).status = 200 ∧
          (envNotApproved.approvalsResp 101 7).approved = false) ∧
      ((envNotApproved.approvalsResp 101 7).status ≠ 200 →
        (approve_mr_if_not_yet envNotApproved 101 7).result = .ok false ∧
        (approve_mr_if_not_yet envNotApproved 101 7).calls = [.approvals 101 7]) ∧
      ((envNotApproved.approvalsResp 101 7).status = 200 →
        (envNotApproved.approvalsResp 101 7).approved = true →
        (approve_mr_if_not_yet envNotApproved 101 7).result = .ok true ∧
        (approve_mr_if_not_yet envNotApproved 101 7).calls = [.approvals 101 7]) ∧
      ((envNotApproved.approvalsResp 101 7).status = 200 →
        (envNotApproved.approvalsResp 101 7).approved = false →
        (approve_mr_if_not_yet envNotApproved 101 7).result =
          .ok ((envNotApproved.approveResp 101 7).status == 201))) :=
  ⟨by decide, C7_approve_only_if_needed envNotApproved 101 7 (by decide)⟩

/-- C8: with the token present, one record's network trace is exactly the
approve step's calls followed by the merge call: the approve step settles
(all its calls are issued) before the merge is attempted, the merge call is
never part of the approve step, and the merge is attempted — and decides
the record's outcome — whatever the approve step returned. -/
theorem C8_approve_settles_before_merge (env : Env) (mr : MR)
    (htok : tokenFalsy env.token = false) :
    (process_mr env mr).calls =
      (approve_mr_if_not_yet env mr.project_id mr.iid).calls ++
        [NetCall.merge mr.project_id mr.iid] ∧
    NetCall.merge mr.project_id mr.iid ∈ (process_mr env mr).calls ∧
    NetCall.merge mr.project_id mr.iid ∉
      (approve_mr_if_not_yet env mr.project_id mr.iid).calls ∧
    (process_mr env mr).result =
      (merge_mr env mr.project_id mr.iid mr.title).result := by
  obtain ⟨h1, h2, -⟩ := process_mr_spec env mr htok
  obtain ⟨hm1, -, -⟩ := merge_mr_spec env mr.project_id mr.iid mr.title htok
  have hnomerge : NetCall.merge mr.project_id mr.iid ∉
      (approve_mr_if_not_yet env mr.project_id mr.iid).calls := by
    by_cases ha : (env.approvalsResp mr.project_id mr.iid).status = 200 <;>
      by_cases hb : (env.approvalsResp mr.project_id mr.iid).approved <;>
        simp [approve_mr_if_not_yet, htok, ha, hb]
  refine ⟨h2, ?_, hnomerge, ?_⟩
  · rw [h2]
    exact List.mem_append_right _ (List.mem_singleton.2 rfl)
  · rw [h1, hm1]

theorem C8_approve_settles_before_merge_witness :
    tokenFalsy envMerge.token = false ∧
    ((process_mr envMerge ⟨"issue-renovate-c", "r3", 101, 3, "p"⟩).calls =
        (approve_mr_if_not_yet envMerge 101 3).calls ++ [NetCall.merge 101 3] ∧
      NetCall.merge 101 3 ∈
        (process_mr envMerge ⟨"issue-renovate-c", "r3", 101, 3, "p"⟩).calls ∧
      NetCall.merge 101 3 ∉ (approve_mr_if_not_yet envMerge 101 3).calls ∧
      (process_mr envMerge ⟨"issue-renovate-c", "r3", 101, 3, "p"⟩).result =
        (merge_mr envMerge 101 3 "r3").result) :=
  ⟨by decide,
    C8_approve_settles_before_merge envMerge
      ⟨"issue-renovate-c", "r3", 101, 3, "p"⟩ (by decide)⟩

/-- C9: when the credential token is absent or empty, each remote-calling
operation — project-id resolution (on any identifier not already
memoized), the fan-out fetch, the approve step and the merge call — raises
`typer.Exit("GitLab token not found in credentials.yaml")` having issued no
network request at all; at the CLI boundary that raise prints the message
and exits with status 1. -/
theorem C9_missing_token_aborts (env : Env) (st : CacheState) (path : String)
    (paths : List String) (pid iid : Nat) (title : String)
    (htok : tokenFalsy env.token = true) :
    ((get_project_id env st path).calls = [] ∧
      (findEntry st.entries path = none →
        (get_project_id env st path).result = .error tokenError)) ∧
    ((get_renovate_mrs env st paths).result = .error tokenError ∧
      (get_renovate_mrs env st paths).calls = []) ∧
    ((approve_mr_if_not_yet env pid iid).result = .error tokenError ∧
      (approve_mr_if_not_yet env pid iid).calls = []) ∧
    ((merge_mr env pid iid title).result = .error tokenError ∧
      (merge_mr env pid iid title).calls = []) ∧
    exitStatus tokenError = 1 ∧
    exitOutput tokenError = ["GitLab token not found in credentials.yaml"] := by
  refine ⟨⟨?_, ?_⟩, ⟨?_, ?_⟩, ⟨?_, ?_⟩, ⟨?_, ?_⟩, rfl, rfl⟩
  · cases hfind : findEntry st.entries path <;>
      simp [get_project_id, hfind, htok]
  · intro hfind
    simp [get_project_id, hfind, htok]
  · simp [get_renovate_mrs, htok]
  · simp [get_renovate_mrs, htok]
  · simp [approve_mr_if_not_yet, htok]
  · simp [approve_mr_if_not_yet, htok]
  · simp [merge_mr, htok]
  · simp [merge_mr, htok]

theorem C9_missing_token_aborts_witness :
    tokenFalsy envNoTok.token = true ∧
    (((get_project_id envNoTok CacheState.init "g/p").calls = [] ∧
        (findEntry CacheState.init.entries "g/p" = none →
          (get_project_id envNoTok CacheState.init "g/p").result =
            .error tokenError)) ∧
      ((get_renovate_mrs envNoTok CacheState.init ["g/p"]).result =
          .error tokenError ∧
        (get_renovate_mrs envNoTok CacheState.init ["g/p"]).calls = []) ∧
      ((approve_mr_if_not_yet envNoTok 101 7).result = .error tokenError ∧
        (approve_mr_if_not_yet envNoTok 101 7).calls = []) ∧
      ((merge_mr envNoTok 101 7 "r1").result = .error tokenError ∧
        (merge_mr envNoTok 101 7 "r1").calls = []) ∧
      exitStatus tokenError = 1 ∧
      exitOutput tokenError = ["GitLab token not found in credentials.yaml"]) :=
  ⟨by decide,
    C9_missing_token_aborts envNoTok CacheState.init "g/p" ["g/p"] 101 7 "r1"
      (by decide)⟩

theorem C10_gather_preserves_order_witness :
    tokenFalsy envMix.token = false ∧
    CacheState.init.consistent envMix ∧
    (get_renovate_mrs envMix CacheState.init
        ["grp/org-a/proj-x", "grp/org-b/proj-y", "grp/org-a/proj-x"]).result =
      .ok (((["grp/org-a/proj-x", "grp/org-b/proj-y", "grp/org-a/proj-x"] :
        List String).map (fetchRecords envMix)).flatten) :=
  ⟨by decide, init_consistent envMix,
    C10_gather_preserves_order envMix CacheState.init
      ["grp/org-a/proj-x", "grp/org-b/proj-y", "grp/org-a/proj-x"] (by decide)
      (init_consistent envMix)⟩

end HvGitlab
